import Mathlib

/-!
Verification of the piso_patrol personal-finance dashboard.

Shallow embedding of the transaction data model, the query-time stash
classifier, the aggregation formulas, the goal-projection algorithm, the
row cleaning / rejection logic, the edit-save handler and the utils import
surface, translated from:

  src/utils.py
  src/pages/1_Data_Mapping.py
  src/pages/2_Overview.py
  src/pages/3_Expenses.py
  src/pages/4_Income.py
  src/pages/5_Stashes.py

Amounts are modelled as rationals (the pages do ordinary arithmetic on
pandas float columns; no float-rounding property is at stake in any claim),
dates as explicit year/month/day records ordered chronologically.
-/

/-- Calendar date (time-of-day discarded, as in the pages). -/
structure Date where
  year : Nat
  month : Nat
  day : Nat
  deriving DecidableEq

/-- Numeric key that orders valid dates chronologically:
month ≤ 12 and day ≤ 31 keep the mixed radix faithful. -/
def Date.key (d : Date) : Nat :=
  d.year * 512 + d.month * 32 + d.day

/-- A structurally valid calendar date (what pandas `Timestamp`s always are). -/
def Date.valid (d : Date) : Prop :=
  1 ≤ d.month ∧ d.month ≤ 12 ∧ 1 ≤ d.day ∧ d.day ≤ 31

instance (d : Date) : Decidable d.valid := by
  unfold Date.valid; infer_instance

/-- A row of the canonical transaction table, with the columns the analysis
pages read: Date, Amount, Category, Subcategory, Type, Account. -/
structure Txn where
  date : Date
  amount : ℚ
  category : String
  subcategory : String
  txType : String
  account : String
  deriving DecidableEq

/-- Stash classification, src/pages/2_Overview.py lines 89-90 (same
expression in 5_Stashes.py lines 98-99 and 103-104): a row is Stash iff its
Type is Stash, or its Type is Expense and its Subcategory is a stash-goal
key. -/
def isStash (goals : List String) (t : Txn) : Bool :=
  t.txType == "Stash" || (t.txType == "Expense" && goals.contains t.subcategory)

/-- Expense classification, src/pages/2_Overview.py line 96: Type is Expense
and the row is not Stash. -/
def isExpense (goals : List String) (t : Txn) : Bool :=
  t.txType == "Expense" && !(isStash goals t)

/-- Income classification, src/pages/2_Overview.py line 98. -/
def isIncome (t : Txn) : Bool :=
  t.txType == "Income"

/-- Row classifier `get_type`, src/pages/2_Overview.py lines 142-149. -/
def get_type (goals : List String) (t : Txn) : String :=
  if t.txType == "Income" then "Income"
  else if t.txType == "Stash" || (t.txType == "Expense" && goals.contains t.subcategory) then "Stash"
  else if t.txType == "Expense" then "Expense"
  else "Other"

/-- Source `df['Amount'].sum()` over a list of rows. -/
def sumAmounts (rows : List Txn) : ℚ :=
  (rows.map Txn.amount).sum

/-- Source `total_income`, src/pages/2_Overview.py line 105. -/
def total_income (rows : List Txn) : ℚ :=
  sumAmounts (rows.filter isIncome)

/-- Source `total_expenses`, src/pages/2_Overview.py line 106. -/
def total_expenses (goals : List String) (rows : List Txn) : ℚ :=
  sumAmounts (rows.filter (isExpense goals))

/-- Source `total_stashed`, src/pages/2_Overview.py line 107. -/
def total_stashed (goals : List String) (rows : List Txn) : ℚ :=
  sumAmounts (rows.filter (isStash goals))

/-- Source `net_savings`, src/pages/2_Overview.py line 110. -/
def net_savings (goals : List String) (rows : List Txn) : ℚ :=
  total_income rows + total_stashed goals rows - total_expenses goals rows

/-- Date/account/category masks of the Expenses page, src/pages/3_Expenses.py
lines 99-101. -/
def inExpensesPageFilters (s e : Date) (accts cats : List String) (t : Txn) : Bool :=
  (decide (s.key ≤ t.date.key) && decide (t.date.key ≤ e.key))
    && accts.contains t.account && cats.contains t.category

/-- Expense mask of the Expenses page, src/pages/3_Expenses.py line 102:
plain `Type == 'Expense'`, with no stash-subcategory exclusion. -/
def expensesPageExpenseMask (t : Txn) : Bool :=
  t.txType == "Expense"

/-- Source `total_expenses` KPI of the Expenses page, src/pages/3_Expenses.py
lines 105 and 120: sum of Amount over the filtered frame. -/
def expensesPageTotal (s e : Date) (accts cats : List String) (rows : List Txn) : ℚ :=
  sumAmounts (rows.filter (fun t => inExpensesPageFilters s e accts cats t && expensesPageExpenseMask t))

lemma sumAmounts_nil : sumAmounts [] = 0 := rfl

lemma sumAmounts_cons (t : Txn) (rows : List Txn) :
    sumAmounts (t :: rows) = t.amount + sumAmounts rows := by
  simp [sumAmounts]

/-- Splitting a filtered sum along a second Boolean predicate. -/
lemma sumAmounts_filter_split (p q : Txn → Bool) (rows : List Txn) :
    sumAmounts (rows.filter p)
      = sumAmounts (rows.filter (fun x => p x && q x))
        + sumAmounts (rows.filter (fun x => p x && !q x)) := by
  induction rows with
  | nil => simp [sumAmounts]
  | cons t rest ih =>
      cases hp : p t <;> cases hq : q t <;>
        simp [List.filter_cons, hp, hq, sumAmounts_cons, ih] <;> ring

/-- C3: the Overview classifier is a partition — Stash, Expense and Income
are pairwise disjoint, and their union is exactly the rows whose Type is one
of Income, Expense, Stash (any other Type lands in none of the buckets);
however the Expenses page's expense total does not apply the stash rule:
it decomposes as the rule-based Expense total plus the total of
Expense-typed rows captured by the stash rule.  (Amended from the claim:
the Expenses page's total uses `Type == 'Expense'` alone.) -/
theorem C3_partition_and_expenses_page_total (goals : List String) (t : Txn)
    (s e : Date) (accts cats : List String) (rows : List Txn) :
    (isStash goals t && isExpense goals t) = false ∧
    (isStash goals t && isIncome t) = false ∧
    (isExpense goals t && isIncome t) = false ∧
    ((isStash goals t || isExpense goals t || isIncome t)
      = (t.txType == "Income" || t.txType == "Expense" || t.txType == "Stash")) ∧
    expensesPageTotal s e accts cats rows
      = sumAmounts (rows.filter (fun x => inExpensesPageFilters s e accts cats x && isExpense goals x))
        + sumAmounts (rows.filter
            (fun x => inExpensesPageFilters s e accts cats x
              && (isStash goals x && expensesPageExpenseMask x))) := by
  have htri : t.txType = "Income" ∨ t.txType = "Expense" ∨ t.txType = "Stash" ∨
      (t.txType ≠ "Income" ∧ t.txType ≠ "Expense" ∧ t.txType ≠ "Stash") := by
    tauto
  refine ⟨?_, ?_, ?_, ?_, ?_⟩
  · rcases htri with h | h | h | ⟨h1, h2, h3⟩ <;>
      simp +decide [isStash, isExpense, isIncome, beq_iff_eq, *]
  · rcases htri with h | h | h | ⟨h1, h2, h3⟩ <;>
      simp +decide [isStash, isExpense, isIncome, beq_iff_eq, *]
  · rcases htri with h | h | h | ⟨h1, h2, h3⟩ <;>
      simp +decide [isStash, isExpense, isIncome, beq_iff_eq, *]
  · rcases htri with h | h | h | ⟨h1, h2, h3⟩
    · simp +decide [isStash, isExpense, isIncome, h]
    · simp +decide [isStash, isExpense, isIncome, h]
    · simp +decide [isStash, isExpense, isIncome, h]
    · have e1 : (t.txType == "Income") = false := by simpa using h1
      have e2 : (t.txType == "Expense") = false := by simpa using h2
      have e3 : (t.txType == "Stash") = false := by simpa using h3
      simp [isStash, isExpense, isIncome, e1, e2, e3]
  · rw [expensesPageTotal,
      sumAmounts_filter_split
        (fun x => inExpensesPageFilters s e accts cats x && expensesPageExpenseMask x)
        (isStash goals) rows, add_comm]
    congr 1
    · apply congrArg
      apply List.filter_congr
      intro x _
      simp [isExpense, expensesPageExpenseMask, Bool.and_assoc]
    · apply congrArg
      apply List.filter_congr
      intro x _
      simp [expensesPageExpenseMask, Bool.and_assoc, Bool.and_comm, Bool.and_left_comm]

def vacationGoals : List String := ["Vacation"]

def vacationRow : Txn :=
  { date := ⟨2025, 1, 1⟩, amount := 50, category := "Trips",
    subcategory := "Vacation", txType := "Expense", account := "Cash" }

/-- C3 counterexample: with goal key "Vacation", an Expense-typed row with
Subcategory "Vacation" is Stash under the classification rule (its rule-based
Expense total is 0), yet the Expenses page's expense total still counts it —
so not every analytical Expense total uses the rule, refuting the claim as
stated. -/
theorem C3_counterexample :
    isStash vacationGoals vacationRow = true ∧
    sumAmounts ([vacationRow].filter (isExpense vacationGoals)) = 0 ∧
    expensesPageTotal ⟨2024, 1, 1⟩ ⟨2026, 1, 1⟩ ["Cash"] ["Trips"] [vacationRow] = 50 ∧
    (50 : ℚ) ≠ 0 := by
  refine ⟨by decide, by decide, ?_, by norm_num⟩
  simp +decide [expensesPageTotal, sumAmounts, inExpensesPageFilters,
    expensesPageExpenseMask, vacationRow]

/-- Source `sort_values('Date')`, src/pages/2_Overview.py line 136 (the claims
proved below do not depend on the order of equal-date rows). -/
def sortByDate (rows : List Txn) : List Txn :=
  List.insertionSort (fun a b => a.date.key ≤ b.date.key) rows

/-- Per-row class column, src/pages/2_Overview.py lines 153-155: the row's
Amount when its `get_type` class is `c`, else 0. -/
def classAmount (goals : List String) (c : String) (t : Txn) : ℚ :=
  if get_type goals t == c then t.amount else 0

/-- Running total with starting accumulator `s` (`Series.cumsum()`). -/
def cumsumFrom (s : ℚ) : List ℚ → List ℚ
  | [] => []
  | x :: xs => (s + x) :: cumsumFrom (s + x) xs

/-- Source `Series.cumsum()`, src/pages/2_Overview.py lines 158-160. -/
def cumsum (xs : List ℚ) : List ℚ :=
  cumsumFrom 0 xs

/-- Source `Cumulative Income` column, src/pages/2_Overview.py line 158. -/
def cumulativeIncome (goals : List String) (rows : List Txn) : List ℚ :=
  cumsum ((sortByDate rows).map (classAmount goals "Income"))

/-- Source `Cumulative Expense` column, src/pages/2_Overview.py line 159. -/
def cumulativeExpense (goals : List String) (rows : List Txn) : List ℚ :=
  cumsum ((sortByDate rows).map (classAmount goals "Expense"))

/-- Source `Cumulative Stash` column, src/pages/2_Overview.py line 160. -/
def cumulativeStash (goals : List String) (rows : List Txn) : List ℚ :=
  cumsum ((sortByDate rows).map (classAmount goals "Stash"))

/-- Source `Cumulative Total Savings` column, src/pages/2_Overview.py line 162:
pointwise Cumulative Income + Cumulative Stash − Cumulative Expense
(pandas aligns the three columns on the shared row index). -/
def cumulativeNet (goals : List String) (rows : List Txn) : List ℚ :=
  List.zipWith (· - ·)
    (List.zipWith (· + ·) (cumulativeIncome goals rows) (cumulativeStash goals rows))
    (cumulativeExpense goals rows)

lemma cumsumFrom_length (s : ℚ) (xs : List ℚ) :
    (cumsumFrom s xs).length = xs.length := by
  induction xs generalizing s with
  | nil => rfl
  | cons x xs ih => simp [cumsumFrom, ih]

lemma getLastD_cumsumFrom (xs : List ℚ) (s : ℚ) :
    (cumsumFrom s xs).getLastD s = s + xs.sum := by
  induction xs generalizing s with
  | nil => simp [cumsumFrom]
  | cons x xs ih =>
      simp only [cumsumFrom, List.getLastD_cons, ih (s + x), List.sum_cons]
      ring

lemma getLastD_cumsum (xs : List ℚ) :
    (cumsum xs).getLastD 0 = xs.sum := by
  cases xs with
  | nil => simp [cumsum, cumsumFrom]
  | cons x xs =>
      have h := getLastD_cumsumFrom (x :: xs) 0
      simpa [cumsum] using h

lemma zipWith_add_cumsumFrom (xs ys : List ℚ) (a b : ℚ) :
    List.zipWith (· + ·) (cumsumFrom a xs) (cumsumFrom b ys)
      = cumsumFrom (a + b) (List.zipWith (· + ·) xs ys) := by
  induction xs generalizing ys a b with
  | nil => cases ys <;> simp [cumsumFrom]
  | cons x xs ih =>
      cases ys with
      | nil => simp [cumsumFrom]
      | cons y ys =>
          simp only [cumsumFrom, List.zipWith_cons_cons]
          have hhead : a + x + (b + y) = a + b + (x + y) := by ring
          rw [ih ys (a + x) (b + y), hhead]

lemma zipWith_sub_cumsumFrom (xs ys : List ℚ) (a b : ℚ) :
    List.zipWith (· - ·) (cumsumFrom a xs) (cumsumFrom b ys)
      = cumsumFrom (a - b) (List.zipWith (· - ·) xs ys) := by
  induction xs generalizing ys a b with
  | nil => cases ys <;> simp [cumsumFrom]
  | cons x xs ih =>
      cases ys with
      | nil => simp [cumsumFrom]
      | cons y ys =>
          simp only [cumsumFrom, List.zipWith_cons_cons]
          have hhead : a + x - (b + y) = a - b + (x - y) := by ring
          rw [ih ys (a + x) (b + y), hhead]

lemma zipWith_map_same {α β γ δ : Type} (k : β → γ → δ) (f : α → β) (g : α → γ)
    (l : List α) :
    List.zipWith k (l.map f) (l.map g) = l.map (fun x => k (f x) (g x)) := by
  induction l with
  | nil => rfl
  | cons x xs ih => simp [ih]

/-- The code's net column is the running total of the per-row net amount. -/
lemma cumulativeNet_eq_cumsum (goals : List String) (rows : List Txn) :
    cumulativeNet goals rows
      = cumsum ((sortByDate rows).map
          (fun t => classAmount goals "Income" t + classAmount goals "Stash" t
            - classAmount goals "Expense" t)) := by
  unfold cumulativeNet cumulativeIncome cumulativeStash cumulativeExpense cumsum
  rw [zipWith_add_cumsumFrom, zipWith_sub_cumsumFrom]
  rw [zipWith_map_same, zipWith_map_same]
  norm_num

lemma getD_cumsumFrom_three (f g h : Txn → ℚ) (l : List Txn) (a b c : ℚ) (i : ℕ) :
    (cumsumFrom (a + b - c) (l.map fun t => f t + g t - h t)).getD i 0
      = (cumsumFrom a (l.map f)).getD i 0 + (cumsumFrom b (l.map g)).getD i 0
        - (cumsumFrom c (l.map h)).getD i 0 := by
  induction l generalizing i a b c with
  | nil => simp [cumsumFrom]
  | cons t l ih =>
      cases i with
      | zero =>
          simp only [List.map_cons, cumsumFrom, List.getD_cons_zero]
          ring
      | succ i =>
          simp only [List.map_cons, cumsumFrom, List.getD_cons_succ]
          have := ih (a + f t) (b + g t) (c + h t) i
          calc (cumsumFrom (a + b - c + (f t + g t - h t)) (l.map fun t => f t + g t - h t)).getD i 0
              = (cumsumFrom (a + f t + (b + g t) - (c + h t)) (l.map fun t => f t + g t - h t)).getD i 0 := by
                congr 2
                ring
            _ = _ := this

lemma sum_map_add (f g : Txn → ℚ) (l : List Txn) :
    (l.map (fun t => f t + g t)).sum = (l.map f).sum + (l.map g).sum := by
  induction l with
  | nil => simp
  | cons t l ih => simp [ih]; ring

lemma sum_map_sub (f g : Txn → ℚ) (l : List Txn) :
    (l.map (fun t => f t - g t)).sum = (l.map f).sum - (l.map g).sum := by
  induction l with
  | nil => simp
  | cons t l ih => simp [ih]; ring

/-- Indicator sums collapse to filtered sums. -/
lemma sum_map_classAmount (p : Txn → Bool) (f : Txn → ℚ)
    (hp : ∀ t, f t = if p t then t.amount else 0) (l : List Txn) :
    (l.map f).sum = sumAmounts (l.filter p) := by
  induction l with
  | nil => simp [sumAmounts]
  | cons t l ih =>
      cases h : p t <;>
        simp [hp t, h, List.filter_cons, sumAmounts_cons, ih, sumAmounts]

lemma get_type_eq_income (goals : List String) (t : Txn) :
    (get_type goals t == "Income") = isIncome t := by
  unfold get_type isIncome
  cases hI : t.txType == "Income"
  · cases hS : (t.txType == "Stash" || (t.txType == "Expense" && goals.contains t.subcategory))
    · cases hE : t.txType == "Expense" <;> simp [hI, hS, hE]
    · simp [hI, hS]
  · simp [hI]

lemma get_type_eq_stash (goals : List String) (t : Txn) :
    (get_type goals t == "Stash") = isStash goals t := by
  unfold get_type isStash
  cases hI : t.txType == "Income"
  · cases hS : (t.txType == "Stash" || (t.txType == "Expense" && goals.contains t.subcategory))
    · cases hE : t.txType == "Expense" <;> simp [hI, hS, hE]
    · simp [hI, hS]
  · have : t.txType = "Income" := by simpa using hI
    simp +decide [hI, this]

lemma get_type_eq_expense (goals : List String) (t : Txn) :
    (get_type goals t == "Expense") = isExpense goals t := by
  unfold get_type isExpense isStash
  cases hI : t.txType == "Income"
  · cases hS : (t.txType == "Stash" || (t.txType == "Expense" && goals.contains t.subcategory))
    · cases hE : t.txType == "Expense" <;> simp [hI, hS, hE]
    · simp [hI, hS]
  · have : t.txType = "Income" := by simpa using hI
    simp +decide [hI, this]

/-- C8: Net Savings (src/pages/2_Overview.py line 110) is total Income +
total Stash − total Expense over the filtered rows, and the final value of
the Cumulative Total Savings series (line 162) computed over the same rows
equals it. -/
theorem C8_net_savings_identity (goals : List String) (rows : List Txn) :
    net_savings goals rows
      = total_income rows + total_stashed goals rows - total_expenses goals rows ∧
    (cumulativeNet goals rows).getLastD 0 = net_savings goals rows := by
  refine ⟨rfl, ?_⟩
  rw [cumulativeNet_eq_cumsum, getLastD_cumsum]
  have hperm : List.Perm (sortByDate rows) rows := by
    unfold sortByDate
    exact List.perm_insertionSort _ rows
  have hclass : ∀ (c : String) (p : Txn → Bool),
      (∀ t, classAmount goals c t = if p t then t.amount else 0) →
      ((sortByDate rows).map (classAmount goals c)).sum = sumAmounts (rows.filter p) := by
    intro c p hp
    rw [sum_map_classAmount p _ hp]
    exact List.Perm.sum_eq (List.Perm.map Txn.amount (List.Perm.filter p hperm))
  have hIncome := hclass "Income" isIncome (by
    intro t
    simp [classAmount, get_type_eq_income])
  have hStash := hclass "Stash" (isStash goals) (by
    intro t
    simp [classAmount, get_type_eq_stash])
  have hExpense := hclass "Expense" (isExpense goals) (by
    intro t
    simp [classAmount, get_type_eq_expense])
  rw [show (fun t => classAmount goals "Income" t + classAmount goals "Stash" t
        - classAmount goals "Expense" t)
      = (fun t => (fun x => classAmount goals "Income" x + classAmount goals "Stash" x) t
        - classAmount goals "Expense" t) from rfl,
    sum_map_sub, sum_map_add, hIncome, hStash, hExpense]
  rfl

/-- C6: (amended) the Overview cumulative series is computed per transaction
row — the rows are sorted by date and each row contributes one point, with a
zero entry for classes the row does not belong to; it is not resampled to
one point per calendar day.  At every index the Cumulative Total Savings
value equals cumulative Income + cumulative Stash − cumulative Expense. -/
theorem C6_cumulative_series_per_row (goals : List String) (rows : List Txn) (i : ℕ) :
    (cumulativeNet goals rows).length = rows.length ∧
    (cumulativeNet goals rows).getD i 0
      = (cumulativeIncome goals rows).getD i 0 + (cumulativeStash goals rows).getD i 0
        - (cumulativeExpense goals rows).getD i 0 := by
  constructor
  · rw [cumulativeNet_eq_cumsum]
    unfold cumsum sortByDate
    rw [cumsumFrom_length, List.length_map]
    exact List.length_insertionSort _ rows
  · rw [cumulativeNet_eq_cumsum]
    unfold cumulativeIncome cumulativeStash cumulativeExpense cumsum
    have h := getD_cumsumFrom_three (classAmount goals "Income")
      (classAmount goals "Stash") (classAmount goals "Expense") (sortByDate rows) 0 0 0 i
    simpa using h

def dupDateRows : List Txn :=
  [{ date := ⟨2025, 1, 5⟩, amount := 10, category := "Salary",
     subcategory := "Salary", txType := "Income", account := "Cash" },
   { date := ⟨2025, 1, 5⟩, amount := 20, category := "Salary",
     subcategory := "Salary", txType := "Income", account := "Cash" }]

/-- Index a daily-resampled series would have, following the spec's words:
one point per distinct transaction date in range. -/
def specDailySeriesIndex (rows : List Txn) : List Date :=
  ((sortByDate rows).map Txn.date).dedup

/-- C6 counterexample: two transactions on the same date give the code's
cumulative series two points, while a series daily-resampled on the union of
transaction dates would have exactly one — so the series is not
daily-resampled as claimed. -/
theorem C6_counterexample :
    (cumulativeNet [] dupDateRows).length = 2 ∧
    (specDailySeriesIndex dupDateRows).length = 1 ∧
    (2 : ℕ) ≠ 1 := by
  refine ⟨by decide, by decide, by decide⟩

/-- Gregorian leap-year rule (as in Python's `calendar`/`dateutil`). -/
def isLeapYear (y : Nat) : Bool :=
  (y % 4 == 0 && y % 100 != 0) || (y % 400 == 0)

/-- Days in a month (for `relativedelta`'s day clamping). -/
def daysInMonth (y m : Nat) : Nat :=
  if m = 2 then (if isLeapYear y then 29 else 28)
  else if m = 4 ∨ m = 6 ∨ m = 9 ∨ m = 11 then 30
  else 31

/-- Source `date + relativedelta(months=k)`: advance k calendar months, clamping the
day to the target month's length (dateutil semantics). -/
def Date.addMonths (d : Date) (k : Nat) : Date :=
  let mi := d.year * 12 + (d.month - 1) + k
  let y := mi / 12
  let m := mi % 12 + 1
  { year := y, month := m, day := min d.day (daysInMonth y m) }

/-- Source `df['Date'].min()` over a nonempty column, seeded with a first value. -/
def minKeyFold (d : Date) (l : List Date) : Date :=
  l.foldl (fun a b => if b.key < a.key then b else a) d

/-- Source `df['Date'].max()` over a nonempty column, seeded with a first value. -/
def maxKeyFold (d : Date) (l : List Date) : Date :=
  l.foldl (fun a b => if a.key < b.key then b else a) d

/-- Result of `calculate_projection_string` (we keep the projected date as a
date instead of its `strftime` rendering; the other constructors stand for
the function's four literal message strings). -/
inductive ProjResult where
  | noContributions
  | goalMet
  | neverAtThisRate
  | decadesAway
  | est (d : Date)
  deriving DecidableEq

/-- First contribution date, src/pages/5_Stashes.py line 32 (0001-01-01 as
an arbitrary seed for the unreachable empty case). -/
def firstContributionDate (rows : List Txn) : Date :=
  match rows with
  | [] => ⟨1, 1, 1⟩
  | r :: rs => minKeyFold r.date (rs.map Txn.date)

/-- Last contribution date, src/pages/5_Stashes.py line 33. -/
def lastContributionDate (rows : List Txn) : Date :=
  match rows with
  | [] => ⟨1, 1, 1⟩
  | r :: rs => maxKeyFold r.date (rs.map Txn.date)

/-- Elapsed months as the spec words it: (last contribution month − first
contribution month) + 1, with minimum 1. -/
def specElapsedMonths (rows : List Txn) : ℤ :=
  max 1 ((((lastContributionDate rows).year : ℤ) * 12 + (lastContributionDate rows).month)
    - (((firstContributionDate rows).year : ℤ) * 12 + (firstContributionDate rows).month) + 1)

/-- Average monthly contribution rate as the spec words it: all-time total
divided by elapsed months. -/
def specAvgMonthlyRate (rows : List Txn) : ℚ :=
  sumAmounts rows / (specElapsedMonths rows : ℚ)

/-- Months remaining as the spec words it:
ceiling((goal − all-time total) / average monthly rate). -/
def specMonthsRemaining (rows : List Txn) (goal : ℚ) : ℕ :=
  (Int.ceil ((goal - sumAmounts rows) / specAvgMonthlyRate rows)).toNat

/-- Source `num_months`, src/pages/5_Stashes.py lines 36-39: month difference of the
last and first contribution dates plus 1, forced to 1 when nonpositive. -/
def codeNumMonths (rows : List Txn) : ℤ :=
  let first := firstContributionDate rows
  let last := lastContributionDate rows
  let nm : ℤ := ((last.year : ℤ) - first.year) * 12 + ((last.month : ℤ) - first.month) + 1
  if nm ≤ 0 then 1 else nm

/-- Source `calculate_projection_string`, src/pages/5_Stashes.py lines 19-56.
`int(np.ceil(x))` is `⌈x⌉.toNat` here: in the branch where it runs,
`remaining > 0` and `avg > 0`, so the ceiling is a positive integer and
`toNat` is exact.  The final `if` models the `except OverflowError` branch:
Python dates cannot hold a year beyond 9999. -/
def calculate_projection_string (rows : List Txn) (goal : ℚ) : ProjResult :=
  match rows with
  | [] => .noContributions
  | r :: rs =>
    let total := sumAmounts (r :: rs)
    if goal ≤ total then .goalMet
    else
      let avg : ℚ := total / (codeNumMonths (r :: rs) : ℚ)
      if avg ≤ 0 then .neverAtThisRate
      else
        let months_remaining : ℕ := (Int.ceil ((goal - total) / avg)).toNat
        let estimated := (lastContributionDate (r :: rs)).addMonths months_remaining
        if 9999 < estimated.year then .decadesAway else .est estimated

/-- The code's `num_months` equals the spec's elapsed-months formula. -/
lemma codeNumMonths_eq_spec (rows : List Txn) :
    codeNumMonths rows = specElapsedMonths rows := by
  simp only [codeNumMonths, specElapsedMonths]
  split <;> omega

/-- C4: for a nonempty contribution set whose total is below the goal and
whose average monthly rate is positive (and whose projection stays within
Python's representable years), the projected completion date is the last
contribution date advanced by ceiling((goal − total) / (total /
elapsedMonths)) calendar months, with elapsedMonths = (last month − first
month) + 1, minimum 1. -/
theorem C4_projection_formula (rows : List Txn) (goal : ℚ)
    (hne : rows ≠ [])
    (hlt : sumAmounts rows < goal)
    (hrate : 0 < specAvgMonthlyRate rows)
    (hyear : ((lastContributionDate rows).addMonths (specMonthsRemaining rows goal)).year ≤ 9999) :
    calculate_projection_string rows goal
      = .est ((lastContributionDate rows).addMonths (specMonthsRemaining rows goal)) := by
  match rows, hne, hlt, hrate, hyear with
  | r :: rs, _, hlt, hrate, hyear =>
    have havg : sumAmounts (r :: rs) / ((codeNumMonths (r :: rs) : ℤ) : ℚ)
        = specAvgMonthlyRate (r :: rs) := by
      rw [codeNumMonths_eq_spec]
      rfl
    simp only [calculate_projection_string]
    rw [if_neg (not_le.2 hlt), havg, if_neg (not_le.2 hrate)]
    have hm : (Int.ceil ((goal - sumAmounts (r :: rs)) / specAvgMonthlyRate (r :: rs))).toNat
        = specMonthsRemaining (r :: rs) goal := rfl
    rw [hm, if_neg (not_lt.2 hyear)]

def projRows : List Txn :=
  [{ date := ⟨2025, 1, 1⟩, amount := 150, category := "Savings",
     subcategory := "Fund", txType := "Expense", account := "Cash" },
   { date := ⟨2025, 3, 1⟩, amount := 250, category := "Savings",
     subcategory := "Fund", txType := "Expense", account := "Cash" }]

/-- C4 witness: goal 1000, total 400 contributed between Jan 1 and Mar 1 of
2025 (3 elapsed months, rate 400/3, 5 months remaining) projects to
Aug 1, 2025. -/
theorem C4_projection_witness :
    calculate_projection_string projRows 1000 = .est ⟨2025, 8, 1⟩ := by
  have hsum : sumAmounts projRows = 400 := by
    norm_num [projRows, sumAmounts]
  have hlast : lastContributionDate projRows = ⟨2025, 3, 1⟩ := by decide
  have hfirst : firstContributionDate projRows = ⟨2025, 1, 1⟩ := by decide
  have helapsed : specElapsedMonths projRows = 3 := by
    rw [specElapsedMonths, hlast, hfirst]
    norm_num
  have hrate : specAvgMonthlyRate projRows = 400 / 3 := by
    rw [specAvgMonthlyRate, hsum, helapsed]
    norm_num
  have hmonths : specMonthsRemaining projRows 1000 = 5 := by
    rw [specMonthsRemaining, hsum, hrate]
    norm_num
    rw [show ⌈(9 : ℚ) / 2⌉ = 5 from by
      rw [Int.ceil_eq_iff]
      norm_num]
    rfl
  have h := C4_projection_formula projRows 1000 (by decide)
    (by rw [hsum]; norm_num)
    (by rw [hrate]; norm_num)
    (by rw [hlast, hmonths]; decide)
  rw [h, hlast, hmonths]
  decide

/-- YTD filter of `calculate_ytd_average_income`, src/pages/4_Income.py
lines 46-50: strictly before the selected month's first day, on or after
January 1 of the same year, and matching the group value. -/
def ytdWindowRows (rows : List Txn) (g : Txn → String) (item : String) (selStart : Date) : List Txn :=
  rows.filter (fun t =>
    decide (t.date.key < selStart.key)
      && (decide ((Date.mk selStart.year 1 1).key ≤ t.date.key) && (g t == item)))

/-- Source `ytd_df['Date'].dt.to_period('M').nunique()`, src/pages/4_Income.py
line 56: number of distinct (year, month) pairs. -/
def monthsWithActivity (l : List Txn) : ℕ :=
  ((l.map (fun t => (t.date.year, t.date.month))).dedup).length

/-- Source `calculate_ytd_average_income`, src/pages/4_Income.py lines 40-61. -/
def calculate_ytd_average_income (rows : List Txn) (g : Txn → String) (item : String)
    (selStart : Date) : ℚ :=
  if (ytdWindowRows rows g item selStart).isEmpty then 0
  else if monthsWithActivity (ytdWindowRows rows g item selStart) = 0 then 0
  else sumAmounts (ytdWindowRows rows g item selStart)
    / (monthsWithActivity (ytdWindowRows rows g item selStart) : ℚ)

/-- The YTD window as the spec words it: same calendar year, month strictly
before the selected month, matching group value. -/
def specYtdWindowRows (rows : List Txn) (g : Txn → String) (item : String)
    (selStart : Date) : List Txn :=
  rows.filter (fun t =>
    decide (t.date.year = selStart.year)
      && (decide (t.date.month < selStart.month) && (g t == item)))

/-- YTD monthly average as the spec words it: the group's total across the
months strictly before the selected month in the same calendar year, divided
by the number of distinct months in which the group had any activity. -/
def specYtdAverage (rows : List Txn) (g : Txn → String) (item : String)
    (selStart : Date) : ℚ :=
  if (specYtdWindowRows rows g item selStart).isEmpty then 0
  else sumAmounts (specYtdWindowRows rows g item selStart)
    / (monthsWithActivity (specYtdWindowRows rows g item selStart) : ℚ)

/-- Date-window equivalence: for valid dates and a first-of-month selection,
"on or after Jan 1 and strictly before the month start" is "same year and
strictly earlier month". -/
lemma ytd_window_iff (d sel : Date) (hd : d.valid) (hs : sel.valid) (h1 : sel.day = 1) :
    (d.key < sel.key ∧ (Date.mk sel.year 1 1).key ≤ d.key)
      ↔ (d.year = sel.year ∧ d.month < sel.month) := by
  obtain ⟨a1, a2, a3, a4⟩ := hd
  obtain ⟨b1, b2, b3, b4⟩ := hs
  unfold Date.key at *
  simp only at *
  omega

lemma monthsWithActivity_ne_zero (l : List Txn) (h : ¬l.isEmpty = true) :
    ¬monthsWithActivity l = 0 := by
  unfold monthsWithActivity
  intro h0
  rw [List.length_eq_zero, List.dedup_eq_nil, List.map_eq_nil_iff] at h0
  rw [h0] at h
  simp at h

/-- C7: the code's YTD monthly average coincides with the spec formula —
the group's total over the months of the same calendar year strictly before
the selected month, divided by the count of distinct months in which the
group had activity (not by the number of elapsed months). -/
theorem C7_ytd_average (rows : List Txn) (g : Txn → String) (item : String) (selStart : Date)
    (hv : ∀ t ∈ rows, t.date.valid) (hs : selStart.valid) (hd : selStart.day = 1) :
    calculate_ytd_average_income rows g item selStart = specYtdAverage rows g item selStart := by
  have hfilt : ytdWindowRows rows g item selStart = specYtdWindowRows rows g item selStart := by
    unfold ytdWindowRows specYtdWindowRows
    apply List.filter_congr
    intro t ht
    have hiff := ytd_window_iff t.date selStart (hv t ht) hs hd
    cases hgi : (g t == item)
    · simp
    · simp only [hgi, Bool.and_true]
      rw [← Bool.decide_and, ← Bool.decide_and]
      exact decide_eq_decide.mpr hiff
  unfold calculate_ytd_average_income specYtdAverage
  rw [hfilt]
  by_cases hemp : (specYtdWindowRows rows g item selStart).isEmpty = true
  · rw [if_pos hemp, if_pos hemp]
  · rw [if_neg hemp, if_neg hemp,
      if_neg (monthsWithActivity_ne_zero (specYtdWindowRows rows g item selStart) hemp)]

def ytdRowsEx : List Txn :=
  [{ date := ⟨2025, 1, 10⟩, amount := 100, category := "Salary",
     subcategory := "X", txType := "Income", account := "Cash" },
   { date := ⟨2025, 3, 15⟩, amount := 300, category := "Salary",
     subcategory := "X", txType := "Income", account := "Cash" }]

/-- C7 witness: 100 in January and 300 in March with nothing in February,
averaged for April, give (100 + 300) / 2 = 200 — February does not dilute. -/
theorem C7_ytd_average_witness :
    calculate_ytd_average_income ytdRowsEx Txn.subcategory "X" ⟨2025, 4, 1⟩ = 200 := by
  have h := C7_ytd_average ytdRowsEx Txn.subcategory "X" ⟨2025, 4, 1⟩
    (by decide) (by decide) rfl
  rw [h]
  have hrows : specYtdWindowRows ytdRowsEx Txn.subcategory "X" ⟨2025, 4, 1⟩ = ytdRowsEx := by
    decide
  have hm : monthsWithActivity ytdRowsEx = 2 := by decide
  have hsum : sumAmounts ytdRowsEx = 400 := by
    norm_num [sumAmounts, ytdRowsEx]
  unfold specYtdAverage
  rw [hrows, if_neg (by decide : ¬ytdRowsEx.isEmpty = true), hsum, hm]
  norm_num

/-- Value of a pandas float cell as the insight computations produce it:
a finite number, a signed infinity, or NaN. -/
inductive PandasVal where
  | finite (q : ℚ)
  | posInf
  | negInf
  | nan
  deriving DecidableEq

/-- Evaluation of `((Current - Previous) / Previous) * 100` with IEEE division-by-zero
semantics (x/0 is a signed infinity for x ≠ 0 and NaN for x = 0), as pandas
evaluates src/pages/3_Expenses.py line 200. -/
def pandasPctChange (current previous : ℚ) : PandasVal :=
  if previous ≠ 0 then .finite ((current - previous) / previous * 100)
  else if 0 < current - previous then .posInf
  else if current - previous < 0 then .negInf
  else .nan

/-- Source `comparison.replace([inf, -inf], 100.0)`, src/pages/3_Expenses.py
line 204. -/
def replaceInfWith100 : PandasVal → PandasVal
  | .posInf => .finite 100
  | .negInf => .finite 100
  | v => v

/-- The Expense-insight percentage change actually stored in the
`Change (%)` column, src/pages/3_Expenses.py lines 200-204. -/
def expenseChangePct (current previous : ℚ) : PandasVal :=
  replaceInfWith100 (pandasPctChange current previous)

/-- The Income-insight percentage change, src/pages/4_Income.py lines
206-207 and 246-247: `(this - basis) / basis * 100 if basis > 0 else
np.inf`. -/
def incomeChangePct (thisMonth basis : ℚ) : PandasVal :=
  if 0 < basis then .finite ((thisMonth - basis) / basis * 100) else .posInf

/-- C5: (amended) when the comparison basis is zero and the current value is
positive, neither computation errors: the Income-insight computation yields
the unbounded value np.inf, but the Expense-insight computation first
produces the infinity and then replaces it with the finite value 100.0 (the
"new" label is applied at display time from `Previous == 0`), so the two
representations are not identical. -/
theorem C5_zero_basis_change (current : ℚ) (hpos : 0 < current) :
    expenseChangePct current 0 = .finite 100 ∧
    incomeChangePct current 0 = .posInf := by
  constructor
  · unfold expenseChangePct pandasPctChange
    rw [if_neg (by simp), if_pos (by simpa using hpos)]
    rfl
  · unfold incomeChangePct
    rw [if_neg (by norm_num)]

/-- C5 witness: basis 0, current 50. -/
theorem C5_zero_basis_change_witness :
    expenseChangePct 50 0 = .finite 100 ∧ incomeChangePct 50 0 = .posInf :=
  C5_zero_basis_change 50 (by norm_num)

/-- C5 counterexample: at basis 0 and current 50 the Expense-insight change
is the finite value 100, not an unbounded/infinite one, and it differs from
the Income-insight change — refuting the claim that both computations
represent this case identically as an infinite value. -/
theorem C5_counterexample :
    expenseChangePct 50 0 = .finite 100 ∧
    incomeChangePct 50 0 = .posInf ∧
    expenseChangePct 50 0 ≠ incomeChangePct 50 0 := by
  refine ⟨?_, ?_, ?_⟩
  · unfold expenseChangePct pandasPctChange
    rw [if_neg (by norm_num), if_pos (by norm_num)]
    rfl
  · unfold incomeChangePct
    rw [if_neg (by norm_num)]
  · unfold expenseChangePct pandasPctChange incomeChangePct
    rw [if_neg (by norm_num), if_pos (by norm_num), if_neg (by norm_num)]
    simp [replaceInfWith100]

/-- A raw input row as the manual mapping path sees it after column
selection (src/pages/1_Data_Mapping.py lines 238-239): the Date, Amount and
Category cells in their original textual form. -/
structure RawRow where
  date : String
  amount : String
  category : String
  deriving DecidableEq

/-- A working row after the in-place coercions of
src/pages/1_Data_Mapping.py lines 243-244: failed coercions are null
markers (NaT / NaN), the Category cell is still untouched.  Both the
canonical rows and the collected invalid rows are slices of this frame. -/
structure WorkingRow where
  date : Option Date
  amount : Option ℚ
  category : String
  deriving DecidableEq

/-- Source `str.replace(r'[,"$]', '', regex=True)` — drop commas, double quotes and
dollar signs (src/pages/1_Data_Mapping.py line 244). -/
def stripAmountChars (s : String) : String :=
  String.mk (s.data.filter (fun c => !(c == ',' || c == Char.ofNat 34 || c == '$')))

/-- The permissive cell parsers (`pd.to_datetime(…, errors='coerce')` and
`pd.to_numeric(…, errors='coerce')`) are external library collaborators; the
cleaning logic is stated for an arbitrary pair of them. -/
structure Parsers where
  parseDate : String → Option Date
  parseNum : String → Option ℚ

/-- Column coercions of src/pages/1_Data_Mapping.py lines 243-244 applied to
one row: the amount cell is stripped of `,`, `"`, `$` before numeric
parsing. -/
def coerceRow (p : Parsers) (r : RawRow) : WorkingRow :=
  { date := p.parseDate r.date
    amount := p.parseNum (stripAmountChars r.amount)
    category := r.category }

/-- Cleaning, src/pages/1_Data_Mapping.py lines 242-250: coerce the columns
in place, slice out the rows with a null Date or Amount as `invalid_rows`,
and keep the rest (`dropna(subset=['Date', 'Amount'])`) as the canonical
table.  Returns (canonical rows, invalid rows). -/
def cleanRows (p : Parsers) (rows : List RawRow) : List WorkingRow × List WorkingRow :=
  let working := rows.map (coerceRow p)
  (working.filter (fun w => w.date.isSome && w.amount.isSome),
   working.filter (fun w => w.date.isNone || w.amount.isNone))

lemma length_filter_partition (q : WorkingRow → Bool) (l : List WorkingRow) :
    (l.filter q).length + (l.filter (fun w => !q w)).length = l.length := by
  induction l with
  | nil => rfl
  | cons w l ih =>
      cases h : q w <;> simp [List.filter_cons, h] <;> omega

/-- C9: (amended) a row is rejected iff its coerced date or coerced amount
is null, and exactly those rows are excluded from the canonical table
(counts partition the input); but the collected rejected rows are the
post-coercion rows — their failed fields are null markers, not the original
cell values. -/
theorem C9_rejection_rule (p : Parsers) (rows : List RawRow) :
    (cleanRows p rows).1.length + (cleanRows p rows).2.length = rows.length ∧
    (∀ w ∈ (cleanRows p rows).2, w.date = none ∨ w.amount = none) ∧
    (∀ w ∈ (cleanRows p rows).1, w.date.isSome = true ∧ w.amount.isSome = true) := by
  refine ⟨?_, ?_, ?_⟩
  · unfold cleanRows
    have hcongr : (rows.map (coerceRow p)).filter (fun w => w.date.isNone || w.amount.isNone)
        = (rows.map (coerceRow p)).filter (fun w => !(w.date.isSome && w.amount.isSome)) := by
      apply List.filter_congr
      intro w _
      cases hd : w.date <;> cases ha : w.amount <;> simp [hd, ha]
    simp only [hcongr]
    rw [length_filter_partition (fun w => w.date.isSome && w.amount.isSome) (rows.map (coerceRow p))]
    exact List.length_map rows (coerceRow p)
  · intro w hw
    have hcond := (List.mem_filter.mp hw).2
    cases hd : w.date <;> cases ha : w.amount <;> simp_all
  · intro w hw
    have hcond := (List.mem_filter.mp hw).2
    exact Bool.and_eq_true_iff.mp hcond

/-- A concrete instance of the external parsers, agreeing with
`pd.to_datetime` / `pd.to_numeric` on every cell used below ("banana" and
"apple" are unparsable as dates). -/
def p0 : Parsers :=
  { parseDate := fun s =>
      if s = "2024-01-01" then some ⟨2024, 1, 1⟩
      else if s = "2024-01-02" then some ⟨2024, 1, 2⟩
      else none
    parseNum := fun s =>
      if s = "5" then some 5
      else if s = "7" then some 7
      else none }

def rawTableA : List RawRow :=
  [⟨"2024-01-01", "5", "a"⟩, ⟨"2024-01-01", "7", "b"⟩,
   ⟨"banana", "5", "c"⟩,
   ⟨"2024-01-02", "5", "d"⟩, ⟨"2024-01-02", "7", "e"⟩]

def rawTableB : List RawRow :=
  [⟨"2024-01-01", "5", "a"⟩, ⟨"2024-01-01", "7", "b"⟩,
   ⟨"apple", "5", "c"⟩,
   ⟨"2024-01-02", "5", "d"⟩, ⟨"2024-01-02", "7", "e"⟩]

/-- C9 witness: a 5-row table whose third row has an unparsable date yields
4 canonical rows and 1 rejected row, and the rejected row has a null date or
a null amount. -/
theorem C9_rejection_rule_witness :
    (cleanRows p0 rawTableA).2 = [{ date := none, amount := some 5, category := "c" }] ∧
    ((⟨none, some 5, "c"⟩ : WorkingRow).date = none ∨
      (⟨none, some 5, "c"⟩ : WorkingRow).amount = none) ∧
    (cleanRows p0 rawTableA).1.length + (cleanRows p0 rawTableA).2.length = 5 := by
  refine ⟨by decide, ?_, ?_⟩
  · exact (C9_rejection_rule p0 rawTableA).2.1 ⟨none, some 5, "c"⟩ (by decide)
  · exact (C9_rejection_rule p0 rawTableA).1

/-- C9 counterexample: two raw tables that differ only in the unparsable
date cell of their third row ("banana" vs "apple") produce identical
(canonical, rejected) outputs — the rejected record holds the coerced null
marker, so it cannot be the verbatim pre-coercion row, refuting the claim
as stated. -/
theorem C9_counterexample :
    cleanRows p0 rawTableA = cleanRows p0 rawTableB ∧ rawTableA ≠ rawTableB := by
  refine ⟨by decide, by decide⟩

/-- The editor's input view, src/pages/1_Data_Mapping.py lines 305-309: the
canonical table (rows keyed by their pandas index) filtered by the optional
Category and Type selections (`'All'` = `none`). -/
def dataEditorView (processed : List (Nat × Txn)) (filterCat filterType : Option String) :
    List (Nat × Txn) :=
  let afterCat := match filterCat with
    | some c => processed.filter (fun it => it.2.category == c)
    | none => processed
  match filterType with
  | some ty => afterCat.filter (fun it => it.2.txType == ty)
  | none => afterCat

/-- The save handler, src/pages/1_Data_Mapping.py lines 329-411.  The
intermediate merge computations (`update` at lines 337/367, the concat/drop
at lines 344-377, the assignment at line 398) are all dead: the local frames
are discarded and the final assignment at line 404 replaces the session's
canonical table with `edited_df` — the edited *filtered* view — after which
lines 407-408 re-coerce Date and Amount (the identity on well-typed rows
modelled here).  So the saved table is exactly the edited view. -/
def saveChanges (processed : List (Nat × Txn)) (edited : List (Nat × Txn)) :
    List (Nat × Txn) :=
  edited

def foodRow : Txn :=
  { date := ⟨2025, 1, 1⟩, amount := 5, category := "Food",
    subcategory := "Food", txType := "Expense", account := "Cash" }

def rentRow : Txn :=
  { date := ⟨2025, 1, 2⟩, amount := 9, category := "Rent",
    subcategory := "Rent", txType := "Expense", account := "Cash" }

def twoRowTable : List (Nat × Txn) :=
  [(0, foodRow), (1, rentRow)]

/-- C1: with a two-row canonical table, the Category filter set to "Food"
and no user edits at all, saving replaces the canonical table with the
one-row filtered view: the out-of-filter Rent row is dropped instead of
being left unchanged, so the save operation does not preserve rows outside
the active filter. -/
theorem C1_save_drops_out_of_filter_rows :
    dataEditorView twoRowTable (some "Food") none = [(0, foodRow)] ∧
    saveChanges twoRowTable (dataEditorView twoRowTable (some "Food") none) = [(0, foodRow)] ∧
    twoRowTable.length = 2 ∧
    ¬(1, rentRow) ∈ saveChanges twoRowTable (dataEditorView twoRowTable (some "Food") none) := by
  refine ⟨by decide, by decide, by decide, by decide⟩

/-- Columns of the auto-processed table, src/pages/1_Data_Mapping.py lines
154-167: the Date/Amount/Category columns are copied and renamed and a Type
and an Account column are always added; no Subcategory column is ever
created. -/
def autoProcessedColumns : List String :=
  ["Date", "Amount", "Category", "Type", "Account"]

/-- Columns selected by the manual mapping, src/pages/1_Data_Mapping.py
lines 228-239 (the mapping UI at lines 214-222 offers selectors only for
Date, Amount, Category, Type and Account — there is no Subcategory
selector). -/
def mappedNewNames (typeMapped acctMapped : Bool) : List String :=
  ["Date", "Amount", "Category"]
    ++ (if typeMapped then ["Type"] else [])
    ++ (if acctMapped then ["Account"] else [])

/-- Columns of the manually processed table after the post-processing of
src/pages/1_Data_Mapping.py lines 260-271, which adds Type and Account when
absent. -/
def processedColumns (typeMapped acctMapped : Bool) : List String :=
  let base := mappedNewNames typeMapped acctMapped
  let withType := if base.contains "Type" then base else base ++ ["Type"]
  if withType.contains "Account" then withType else withType ++ ["Account"]

/-- C2: neither the auto-processing path nor any manual mapping produces a
Subcategory column in the processed canonical table (yet the Overview,
Income and Stashes pages all read one). -/
theorem C2_no_subcategory_column :
    ∀ (typeMapped acctMapped : Bool),
      ¬"Subcategory" ∈ processedColumns typeMapped acctMapped ∧
      ¬"Subcategory" ∈ autoProcessedColumns := by
  decide

/-- Session state visible to a page (canonical table, stash goals, global
date range). -/
structure SessionState where
  processedData : List Txn
  stashGoals : List (String × ℚ)
  globalStart : Option Date
  globalEnd : Option Date

/-- Top-level functions defined by src/utils.py (lines 5, 26, 83). -/
def utilsTopLevelDefs : List String :=
  ["add_currency_selector", "display_filters", "display_sidebar_stash_filters"]

/-- Names the Overview page imports from utils (src/pages/2_Overview.py
line 6). -/
def overviewUtilsImports : List String :=
  ["add_currency_selector", "display_global_date_filter"]

/-- Names the Income page imports from utils (src/pages/4_Income.py
line 6). -/
def incomeUtilsImports : List String :=
  ["add_currency_selector", "display_global_date_filter"]

/-- Names the Stashes page imports from utils (src/pages/5_Stashes.py
line 3). -/
def stashesUtilsImports : List String :=
  ["add_currency_selector", "display_global_date_filter"]

inductive PageLoadResult where
  | importError (missing : String)
  | loaded
  deriving DecidableEq

/-- Python's `from utils import a, b, …`: the first name not defined at the
top level of utils raises ImportError, before any page code runs. -/
def resolveFromImport (defined names : List String) : PageLoadResult :=
  match names.find? (fun n => !defined.contains n) with
  | some n => .importError n
  | none => .loaded

/-- Loading the Overview page: the import line runs before the page body,
so the body never executes regardless of session state. -/
def loadOverviewPage (_s : SessionState) : PageLoadResult :=
  resolveFromImport utilsTopLevelDefs overviewUtilsImports

/-- Loading the Income page (same import line). -/
def loadIncomePage (_s : SessionState) : PageLoadResult :=
  resolveFromImport utilsTopLevelDefs incomeUtilsImports

/-- Loading the Stashes page (same import line). -/
def loadStashesPage (_s : SessionState) : PageLoadResult :=
  resolveFromImport utilsTopLevelDefs stashesUtilsImports

/-- C10: utils defines no `display_global_date_filter`, yet Overview, Income
and Stashes import it — so for every session state, loading any of the three
pages fails with an import error naming that function, before any filtering,
classification or aggregation runs. -/
theorem C10_pages_fail_on_import (s : SessionState) :
    loadOverviewPage s = .importError "display_global_date_filter" ∧
    loadIncomePage s = .importError "display_global_date_filter" ∧
    loadStashesPage s = .importError "display_global_date_filter" ∧
    ¬"display_global_date_filter" ∈ utilsTopLevelDefs := by
  refine ⟨by rfl, by rfl, by rfl, by decide⟩
